import Mathlib

/-!
Verification of the BostonTec stress-test engine.

Shallow embedding of the repository's test-path execution core:
  - `core/test_executor.py`  (TestExecutor: step dispatch, selector resolution, run loop)
  - `bostontec_stress_test.py` (BostonTecStressTest: step dispatch, selector resolution,
     performance snapshots, run loop)
  - `core/test_engine.py` + `core/data_collector.py` (TestEngine.run_test, telemetry buffers)

The page driver (Playwright) is modelled as an oracle structure: each driver call
(`Locator.count`, `Locator.click`, `Page.goto`, `Page.evaluate`, ...) is a field mapping
the concrete selector/argument to `Except Fault result`, so an arbitrary page state and
arbitrary driver faults are both expressible.  Functions that the Python code wraps in
`try/except` are embedded so that the handler's conversion (to `False` / `(None, None)` /
a skipped append) is explicit.  Where a step handler issues driver calls, the embedding
additionally returns the ordered trace of issued `DriverOp`s, so "performs no driver
action" is a statement about an empty trace.
-/

namespace StressTest

/-- A single apostrophe, used inside CSS selector strings built by the source
(e.g. the Python f-string `[data-product-id='{v}']`). -/
def sq : String := "\x27"

/-- Step record, from the test-path JSON consumed by both executors (spec DATA MODEL:
name/action/selector_type/selector_value plus action-specific optional fields).
Keys read with `step[...]` in Python are required fields; keys read with `step.get(...)`
are `Option`s. -/
structure Step where
  step : String
  action : String
  selector_type : String
  selector_value : String
  base : Option String
  text : Option String
  url : Option String
  duration : Option Nat
  direction : Option String
  pixels : Option Int
deriving DecidableEq, Repr

/-- Default Step used only as the `List.getD` fallback in theorem statements. -/
def stepDefault : Step :=
  ⟨"", "", "", "", none, none, none, none, none, none⟩

/-- A driver-level fault (Playwright exception: timeout, detached element, ...). -/
inductive Fault
  | timeout
  | err (msg : String)
deriving DecidableEq, Repr

/-- One call issued to the page driver. `query` is `Locator.count()`,
`stateQuery` is the element-state inspection done by `capture_element_state`. -/
inductive DriverOp
  | waitLoad
  | goto (url : String)
  | query (sel : String)
  | click (sel : String)
  | fill (sel : String) (contents : String)
  | evaluate (script : String)
  | stateQuery (sel : String)
deriving DecidableEq, Repr

namespace TestExecutor

/-- Oracle model of the Playwright page as seen by `core/test_executor.py`:
each driver call either returns a value or raises a `Fault`. -/
structure PageX where
  countResult : String → Except Fault Nat
  clickResult : String → Except Fault Unit
  fillResult : String → String → Except Fault Unit
  gotoResult : String → Except Fault Unit
  evalResult : String → Except Fault Unit

/-- `TestExecutor._locate_element` (test_executor.py lines 148-184).  Playwright
`page.locator(...)` / `.first` are lazy: no driver call is issued here, so the
function is pure.  A chained locator `a.locator(b)` is represented by the selector
string `a ++ " >> " ++ b`; the returned string is the element handle (the `.first`
match of that selector).  The Python `if`/`elif` chain is kept; the final `else`
(unknown selector type) returns `None`. -/
def locate_element (s : Step) : Option String :=
  if s.selector_type = "text" then
    match s.base with
    | some b => some (b ++ " >> text=" ++ s.selector_value)
    | none => some ("text=" ++ s.selector_value)
  else if s.selector_type = "testid" then
    some ("[data-testid=" ++ sq ++ s.selector_value ++ sq ++ "]")
  else if s.selector_type = "composite" then
    some s.selector_value
  else if s.selector_type = "css" then
    some s.selector_value
  else if s.selector_type = "id" then
    some ("#" ++ s.selector_value)
  else if s.selector_type = "class" then
    some ("." ++ s.selector_value)
  else
    none

/-- `TestExecutor._execute_click` (lines 42-49): locate, then click (which may fault);
`time.sleep(1)` is not a driver call. -/
def execute_click (page : PageX) (s : Step) : Except Fault Bool × List DriverOp :=
  match locate_element s with
  | some sel =>
      match page.clickResult sel with
      | .ok _ => (.ok true, [.click sel])
      | .error e => (.error e, [.click sel])
  | none => (.ok false, [])

/-- `TestExecutor._execute_navigate` (lines 110-117). -/
def execute_navigate (page : PageX) (s : Step) : Except Fault Bool × List DriverOp :=
  match s.url with
  | some u =>
      match page.gotoResult u with
      | .ok _ => (.ok true, [.goto u])
      | .error e => (.error e, [.goto u])
  | none => (.ok false, [])

/-- `TestExecutor._execute_wait` (lines 119-123): `time.sleep` only, always succeeds. -/
def execute_wait (_page : PageX) (_s : Step) : Except Fault Bool × List DriverOp :=
  (.ok true, [])

/-- `TestExecutor._execute_type` (lines 125-133). -/
def execute_type (page : PageX) (s : Step) : Except Fault Bool × List DriverOp :=
  match locate_element s with
  | some sel =>
      match page.fillResult sel (s.text.getD "") with
      | .ok _ => (.ok true, [.fill sel (s.text.getD "")])
      | .error e => (.error e, [.fill sel (s.text.getD "")])
  | none => (.ok false, [])

/-- `TestExecutor._execute_scroll` (lines 135-146): evaluates a scroll script for
direction down/up, no driver call otherwise; always returns True when no fault. -/
def execute_scroll (page : PageX) (s : Step) : Except Fault Bool × List DriverOp :=
  let direction := s.direction.getD "down"
  let pixels := s.pixels.getD 500
  if direction = "down" then
    let script := "window.scrollBy(0, " ++ toString pixels ++ ")"
    match page.evalResult script with
    | .ok _ => (.ok true, [.evaluate script])
    | .error e => (.error e, [.evaluate script])
  else if direction = "up" then
    let script := "window.scrollBy(0, -" ++ toString pixels ++ ")"
    match page.evalResult script with
    | .ok _ => (.ok true, [.evaluate script])
    | .error e => (.error e, [.evaluate script])
  else
    (.ok true, [])

/-- The fixed inner-button selector used by `_execute_increment_quantity`. -/
def increment_button_sel : String := "[data-testid=\"increment-button\"]"

/-- The ordered fallback list `selectors_to_try` (lines 61-68). -/
def selectors_to_try (v : String) : List String :=
  ["[data-product-id=" ++ sq ++ v ++ sq ++ "]",
   "[data-testid=" ++ sq ++ v ++ sq ++ "]",
   "#" ++ v,
   "." ++ v,
   "[id*=" ++ sq ++ v ++ sq ++ "]",
   "[class*=" ++ sq ++ v ++ sq ++ "]"]

/-- The ordered alternative increment-button selectors `alt_selectors` (lines 87-93). -/
def alt_selectors : List String :=
  ["button[data-testid=\"increment\"]",
   "button[aria-label*=\"increment\"]",
   "button[title*=\"increment\"]",
   ".increment-button",
   "button:has-text(\"+\")"]

/-- Inner loop of `_execute_increment_quantity` over `alt_selectors` (lines 95-101):
count each chained selector, click the first with a positive count. -/
def try_alt_selectors (page : PageX) (sectionSel : String) :
    List String → Except Fault Bool × List DriverOp
  | [] => (.ok false, [])
  | alt :: rest =>
      let sel := sectionSel ++ " >> " ++ alt
      match page.countResult sel with
      | .error e => (.error e, [.query sel])
      | .ok n =>
          if n > 0 then
            match page.clickResult sel with
            | .ok _ => (.ok true, [.query sel, .click sel])
            | .error e => (.error e, [.query sel, .click sel])
          else
            let r := try_alt_selectors page sectionSel rest
            (r.1, .query sel :: r.2)

/-- Outer loop of `_execute_increment_quantity` over `selectors_to_try` (lines 70-105):
for each candidate section selector with a positive count, try the fixed
increment button, then the alternative list; if neither clicks, continue with the
next candidate.  A fault in any count/click propagates (caught only at
`execute_step`). -/
def try_section_selectors (page : PageX) :
    List String → Except Fault Bool × List DriverOp
  | [] => (.ok false, [])
  | sel :: rest =>
      match page.countResult sel with
      | .error e => (.error e, [.query sel])
      | .ok n =>
          if n > 0 then
            let ib := sel ++ " >> " ++ increment_button_sel
            match page.countResult ib with
            | .error e => (.error e, [.query sel, .query ib])
            | .ok m =>
                if m > 0 then
                  match page.clickResult ib with
                  | .ok _ => (.ok true, [.query sel, .query ib, .click ib])
                  | .error e => (.error e, [.query sel, .query ib, .click ib])
                else
                  match try_alt_selectors page sel alt_selectors with
                  | (.ok true, tr) => (.ok true, [.query sel, .query ib] ++ tr)
                  | (.ok false, tr) =>
                      let r := try_section_selectors page rest
                      (r.1, [.query sel, .query ib] ++ tr ++ r.2)
                  | (.error e, tr) => (.error e, [.query sel, .query ib] ++ tr)
          else
            let r := try_section_selectors page rest
            (r.1, .query sel :: r.2)

/-- `TestExecutor._execute_increment_quantity` (lines 51-108): the fallback search
runs only for `selector_type == 'section_product'`; any other selector type falls
directly to the final `return False` with no driver call. -/
def execute_increment_quantity (page : PageX) (s : Step) :
    Except Fault Bool × List DriverOp :=
  if s.selector_type = "section_product" then
    try_section_selectors page (selectors_to_try s.selector_value)
  else
    (.ok false, [])

/-- Body of the `try` block of `TestExecutor.execute_step` (lines 17-40): the
`if/elif` dispatch on `step['action']`; the final `else` logs and returns False
with no driver call. -/
def execute_step_body (page : PageX) (s : Step) : Except Fault Bool × List DriverOp :=
  if s.action = "click" then execute_click page s
  else if s.action = "increment_quantity" then execute_increment_quantity page s
  else if s.action = "navigate" then execute_navigate page s
  else if s.action = "wait" then execute_wait page s
  else if s.action = "type" then execute_type page s
  else if s.action = "scroll" then execute_scroll page s
  else (.ok false, [])

/-- `TestExecutor.execute_step` with its `except Exception` boundary (lines 38-40):
any fault raised inside the body is converted to `False` (plus a log entry). -/
def execute_step (page : PageX) (s : Step) : Bool × List DriverOp :=
  match execute_step_body page s with
  | (.ok b, tr) => (b, tr)
  | (.error _, tr) => (false, tr)

/-- Loop body of `TestExecutor.execute_test_run` (lines 186-197), instrumented with
the ordered list of 1-based step numbers actually passed to `execute_step`:
the first `False` returns immediately. -/
def run_steps (page : PageX) : List Step → Nat → Bool × List Nat
  | [], _ => (true, [])
  | s :: rest, n =>
      if (execute_step page s).1 then
        let r := run_steps page rest (n + 1)
        (r.1, n :: r.2)
      else
        (false, [n])

/-- `TestExecutor.execute_test_run` (lines 186-197): `enumerate(steps, 1)` starts
step numbering at 1. -/
def execute_test_run (page : PageX) (steps : List Step) : Bool × List Nat :=
  run_steps page steps 1

end TestExecutor

namespace BT

/-- Oracle model of the Playwright page as seen by `bostontec_stress_test.py`.
`waitLoadResult` is `page.wait_for_load_state(...)`; `perfEvalResult` is the
`page.evaluate` of the performance-metrics script in `capture_performance_metrics`;
`memUsed`/`memLimit` are the values that script reports for
`performance.memory.usedJSHeapSize` / `jsHeapSizeLimit` (`|| 0` defaults applied). -/
structure PageB where
  waitLoadResult : Except Fault Unit
  countResult : String → Except Fault Nat
  clickResult : String → Except Fault Unit
  stateResult : String → Except Fault Unit
  perfEvalResult : Except Fault Unit
  memUsed : ℚ
  memLimit : ℚ

/-- `BostonTecStressTest.locate_element` (bostontec_stress_test.py lines 394-425):
for each recognized selector type, build the selector, query its count, and return
`(type, selector)` only when the count is positive.  A zero count falls through to
`return None, None`, i.e. `none`; the surrounding `try/except` also converts a
faulting count query to `none`.  Unrecognized selector types (the fall-through for
anything outside text/testid/composite/section_product) return `none` without any
driver call. -/
def locate_element (page : PageB) (s : Step) : Option (String × String) × List DriverOp :=
  let attempt : String → String → Option (String × String) × List DriverOp :=
    fun tag sel =>
      match page.countResult sel with
      | .ok n => (if n > 0 then some (tag, sel) else none, [DriverOp.query sel])
      | .error _ => (none, [DriverOp.query sel])
  if s.selector_type = "text" then
    let b := s.base.getD "button"
    attempt "text" (b ++ ":has-text(" ++ sq ++ s.selector_value ++ sq ++ ")")
  else if s.selector_type = "testid" then
    attempt "testid" ("[data-testid=\"" ++ s.selector_value ++ "\"]")
  else if s.selector_type = "composite" then
    attempt "composite" s.selector_value
  else if s.selector_type = "section_product" then
    attempt "section_product"
      ("[data-testid=\"section-product\"].zv-product-" ++ s.selector_value)
  else
    (none, [])

/-- The increment-button locator chained inside the located section (line 475). -/
def increment_button_sel : String := "[data-testid=\"increment-button\"]"

/-- Body of the `try` block of `BostonTecStressTest.execute_step` (lines 427-498).
The method first reads `step['step']` and `step['action']` (total on the `Step`
record), then inside `try`: an inner `try/except pass` around
`wait_for_load_state` (the op is issued even if it faults), then the
`click` / `increment_quantity` / unknown dispatch.  `capture_element_state`
before/after a click is itself wrapped in `try/except pass` and issues
element-state queries. -/
def execute_step_body (page : PageB) (s : Step) : Except Fault Bool × List DriverOp :=
  let tr0 : List DriverOp := [DriverOp.waitLoad]
  if s.action = "click" then
    match locate_element page s with
    | (some (_tag, sel), trL) =>
        let trB : List DriverOp := [DriverOp.stateQuery sel]
        match page.clickResult sel with
        | .ok _ =>
            (.ok true,
             tr0 ++ trL ++ trB ++ [DriverOp.click sel] ++ [DriverOp.stateQuery sel])
        | .error e => (.error e, tr0 ++ trL ++ trB ++ [DriverOp.click sel])
    | (none, trL) => (.ok false, tr0 ++ trL)
  else if s.action = "increment_quantity" then
    match locate_element page s with
    | (some (_tag, sel), trL) =>
        match page.countResult sel with
        | .error e => (.error e, tr0 ++ trL ++ [DriverOp.query sel])
        | .ok n =>
            if n > 0 then
              let ib := sel ++ " >> " ++ increment_button_sel
              match page.countResult ib with
              | .error e => (.error e, tr0 ++ trL ++ [DriverOp.query sel, DriverOp.query ib])
              | .ok m =>
                  if m > 0 then
                    match page.clickResult ib with
                    | .ok _ =>
                        (.ok true,
                         tr0 ++ trL ++ [DriverOp.query sel, DriverOp.query ib, DriverOp.click ib])
                    | .error e =>
                        (.error e,
                         tr0 ++ trL ++ [DriverOp.query sel, DriverOp.query ib, DriverOp.click ib])
                  else (.ok false, tr0 ++ trL ++ [DriverOp.query sel, DriverOp.query ib])
            else (.ok false, tr0 ++ trL ++ [DriverOp.query sel])
    | (none, trL) => (.ok false, tr0 ++ trL)
  else
    (.ok false, tr0)

/-- `BostonTecStressTest.execute_step` with its `except Exception` boundary
(lines 494-498): any fault from the body is converted to `False` plus log lines. -/
def execute_step (page : PageB) (s : Step) : Bool × List DriverOp :=
  match execute_step_body page s with
  | (.ok b, tr) => (b, tr)
  | (.error _, tr) => (false, tr)

/-- The derived percentage of line 304:
`(used / limit) * 100 if limit > 0 else 0`. -/
def memory_usage_percent (used limit : ℚ) : ℚ :=
  if limit > 0 then used / limit * 100 else 0

/-- The log-only memory-pressure classification of lines 309-312
(`> 80` high, `> 60` elevated); it feeds the logger and nothing else. -/
inductive MemPressure
  | high
  | elevated
  | normal
deriving DecidableEq, Repr

/-- Which warning lines 309-312 would log for a given percentage. -/
def memory_pressure_signal (pct : ℚ) : MemPressure :=
  if pct > 80 then .high else if pct > 60 then .elevated else .normal

/-- One entry of `self.stats['performance_metrics']`, with the fields the engine
reads back (run context and the derived percentage). -/
structure BTMetrics where
  run_number : Nat
  step_name : String
  memory_usage_percent : ℚ
deriving DecidableEq, Repr

/-- One entry of `self.stats['performance_degradation']` (lines 341-350). -/
structure Degradation where
  run_number : Nat
  increase_percent : ℚ
deriving DecidableEq, Repr

/-- The parts of `self.stats` that `execute_test_run` touches (besides counters
owned by `run_stress_test`).  `gc_calls` counts `force_garbage_collection`
invocations (its page.evaluate is logging/cleanup only, wrapped in try/except). -/
structure BTStats where
  performance_metrics : List BTMetrics
  performance_degradation : List Degradation
  gc_calls : Nat
deriving DecidableEq, Repr

/-- `BostonTecStressTest.capture_performance_metrics` (lines 271-318): evaluate the
metrics script (a fault is caught: warn and return None, appending nothing),
derive `memory_usage_percent`, append the snapshot to
`stats['performance_metrics']`.  The threshold warnings only log. -/
def capture_performance_metrics (page : PageB) (run_number : Nat) (step_name : String)
    (stats : BTStats) : BTStats :=
  match page.perfEvalResult with
  | .error _ => stats
  | .ok _ =>
      { stats with
          performance_metrics := stats.performance_metrics ++
            [⟨run_number, step_name, memory_usage_percent page.memUsed page.memLimit⟩] }

/-- Average of `memory_usage_percent` over a metrics list (lines 334-335). -/
def avg_mem (l : List BTMetrics) : ℚ :=
  (l.map BTMetrics.memory_usage_percent).sum / l.length

/-- `BostonTecStressTest.detect_performance_degradation` (lines 320-358): below run 2
or with an empty side it returns unchanged; otherwise it appends a degradation
record when the average memory percentage rose by more than 10. -/
def detect_performance_degradation (current_run : Nat) (stats : BTStats) : BTStats :=
  if current_run < 2 then stats
  else
    let current := stats.performance_metrics.filter (fun m => m.run_number == current_run)
    let previous :=
      stats.performance_metrics.filter (fun m => m.run_number == current_run - 1)
    if current.isEmpty || previous.isEmpty then stats
    else
      let memory_increase := avg_mem current - avg_mem previous
      if memory_increase > 10 then
        { stats with
            performance_degradation :=
              stats.performance_degradation ++ [⟨current_run, memory_increase⟩] }
      else stats

/-- `BostonTecStressTest.force_garbage_collection` (lines 360-380): issues a GC
script (faults caught); observable here as a counter bump. -/
def force_garbage_collection (stats : BTStats) : BTStats :=
  { stats with gc_calls := stats.gc_calls + 1 }

/-- The high-memory GC trigger of `execute_test_run` lines 554-557: look at the last
`after_step_i` snapshot of the current run; above 70 percent, force GC. -/
def gc_check (run_number i : Nat) (stats : BTStats) : BTStats :=
  let current := stats.performance_metrics.filter
    (fun m => m.run_number == run_number && m.step_name == "after_step_" ++ toString i)
  match current.getLast? with
  | some m => if m.memory_usage_percent > 70 then force_garbage_collection stats else stats
  | none => stats

/-- The step loop of `BostonTecStressTest.execute_test_run` (lines 538-560),
instrumented with the 1-based step numbers passed to `execute_step`:
capture `before_step_i`, execute (abort on `False` without the after-capture),
capture `after_step_i`, run degradation detection and the GC check. -/
def run_steps (page : PageB) (run_number : Nat) :
    List Step → Nat → BTStats → Bool × BTStats × List Nat
  | [], _, stats => (true, stats, [])
  | s :: rest, i, stats =>
      let stats1 :=
        capture_performance_metrics page run_number ("before_step_" ++ toString i) stats
      if (execute_step page s).1 then
        let stats2 :=
          capture_performance_metrics page run_number ("after_step_" ++ toString i) stats1
        let stats3 := detect_performance_degradation run_number stats2
        let stats4 := gc_check run_number i stats3
        let r := run_steps page run_number rest (i + 1) stats4
        (r.1, r.2.1, i :: r.2.2)
      else
        (false, stats1, [i])

/-- `BostonTecStressTest.execute_test_run` (lines 515-572): capture `start`, wait for
load state (fault caught, warning only) and settle, capture `page_loaded`, run the
steps, and on full success capture `completed`.  The surrounding `try/except`
never fires in this model because every callee catches its own faults. -/
def execute_test_run (page : PageB) (test_steps : List Step) (run_number : Nat)
    (stats : BTStats) : Bool × BTStats × List Nat :=
  let stats1 := capture_performance_metrics page run_number "start" stats
  let stats2 := capture_performance_metrics page run_number "page_loaded" stats1
  match run_steps page run_number test_steps 1 stats2 with
  | (true, st, tr) => (true, capture_performance_metrics page run_number "completed" st, tr)
  | (false, st, tr) => (false, st, tr)

end BT

namespace TestEngine

/-- `core/config_loader.py` `CustomerConfig` (the fields `setup_test` reads). -/
structure CustomerConfig where
  name : String
  target_url : String
  max_iterations : Nat
  default_iterations : Nat
deriving DecidableEq, Repr

/-- The iteration clamp of `TestEngine.setup_test` (test_engine.py lines 46-50):
`if iterations > max_iterations: iterations = max_iterations`. -/
def validate_iterations (iterations max_iterations : Nat) : Nat :=
  if iterations > max_iterations then max_iterations else iterations

/-- `TestEngine.setup_test` (lines 38-58) at the level the claim concerns:
configuration loading may raise (FileNotFoundError propagates to the caller);
with a loaded config the requested count is clamped and returned, never
rejected. -/
def setup_test (load_result : Except String CustomerConfig) (iterations : Nat) :
    Except String Nat :=
  match load_result with
  | .error e => .error e
  | .ok cfg => .ok (validate_iterations iterations cfg.max_iterations)

/-- A telemetry entry as tagged by `DataCollector.capture_performance_metrics`
(data_collector.py lines 119-125); only the identifying run context is needed. -/
structure Entry where
  run_number : Nat
  step_name : String
deriving DecidableEq, Repr

/-- The four list objects owned by `DataCollector` (data_collector.py lines 18-21).
In Python these are mutated in place (`.clear()` / `.append(...)`), never rebound,
so their object identity is stable for the whole run-set; this structure is the
heap cell holding their current contents. -/
structure TelemetryStore where
  console_logs : List Entry
  network_requests : List Entry
  performance_metrics : List Entry
  errors : List Entry
deriving DecidableEq, Repr

/-- What `DataCollector.get_collected_data` (lines 189-197) returns: a dict whose
values are the collector's live list objects, not copies.  A returned dict is
therefore a reference into the store, modelled by this one-constructor type. -/
inductive CollectedDataRef
  | liveBuffers
deriving DecidableEq, Repr

/-- Dereference a collected-data value against the current store contents:
reading `data['performance_metrics']` sees whatever the live list holds now. -/
def read_performance (store : TelemetryStore) : CollectedDataRef → List Entry
  | .liveBuffers => store.performance_metrics

/-- `DataCollector.get_collected_data`: returns the reference to the live buffers. -/
def get_collected_data : CollectedDataRef := .liveBuffers

/-- `DataCollector.clear_data` (lines 199-204): `.clear()` empties the live list
objects in place. -/
def clear_data (_store : TelemetryStore) : TelemetryStore := ⟨[], [], [], []⟩

/-- Collaborator behavior visible to `TestEngine.run_test` (test_engine.py
lines 60-137): the result of `BrowserManager.navigate_to` (which catches driver
faults and returns a bool), the result of `wait_for_page_load` (returned bool is
ignored by `run_test`), the data-collection toggles guarding
`DataCollector.capture_performance_metrics`, and the per-run outcome of
`TestExecutor.execute_test_run` (a total, never-raising bool). -/
structure EngineEnv where
  target_url : String
  navigate_ok : Bool
  load_ok : Bool
  performance_tracking : Bool
  perf_eval_ok : Bool
  runSuccess : Nat → Bool

/-- `DataCollector.capture_performance_metrics` (data_collector.py lines 87-130):
appends one entry to the live `performance_metrics` list when performance
tracking is enabled and the page evaluation does not fault (a fault is caught and
logged, appending nothing). -/
def capture_performance_metrics (env : EngineEnv) (run_number : Nat)
    (step_name : String) (store : TelemetryStore) : TelemetryStore :=
  if env.performance_tracking && env.perf_eval_ok then
    { store with
        performance_metrics := store.performance_metrics ++ [⟨run_number, step_name⟩] }
  else store

/-- One run record of `run_test` (test_engine.py lines 107-113): the `data` field
holds what `get_collected_data` returned at append time — a reference to the live
buffers. -/
structure RunData where
  run_number : Nat
  success : Bool
  screenshot : String
  data : CollectedDataRef
deriving DecidableEq, Repr

/-- The summary built by `TestEngine._generate_summary` (lines 139-163), restricted
to the fields the claims mention. -/
structure Summary where
  total_runs : Nat
  successful_runs : Nat
  failed_runs : Nat
  success_rate : ℚ
  test_results : List RunData
deriving DecidableEq, Repr

/-- Result of a completed `run_test`: the summary plus the final contents of the
collector's live list objects (needed to dereference `RunData.data`). -/
structure EngineOutcome where
  summary : Summary
  store : TelemetryStore
deriving DecidableEq, Repr

/-- The `for run_number in range(1, iterations + 1)` loop of `TestEngine.run_test`
(lines 83-125): clear the collector, capture `start`, execute the run (never
raises), capture `end`, take a screenshot (faults caught in `BrowserManager`),
and append the run record holding `get_collected_data`'s reference. -/
def engine_loop (env : EngineEnv) :
    Nat → Nat → TelemetryStore → List RunData → Nat → Nat →
    TelemetryStore × List RunData × Nat × Nat
  | 0, _, store, results, s, f => (store, results, s, f)
  | n + 1, run_number, store, results, s, f =>
      let store1 := clear_data store
      let store2 := capture_performance_metrics env run_number "start" store1
      let ok := env.runSuccess run_number
      let store3 := capture_performance_metrics env run_number "end" store2
      let rd : RunData :=
        ⟨run_number, ok, "run_" ++ toString run_number ++ "_final_state.png",
         get_collected_data⟩
      let results2 := results ++ [rd]
      let s2 := if ok then s + 1 else s
      let f2 := if ok then f else f + 1
      engine_loop env n (run_number + 1) store3 results2 s2 f2

/-- `TestEngine._generate_summary` (lines 139-163): totals and the guarded
success-rate percentage. -/
def generate_summary (successful_runs failed_runs : Nat) (test_results : List RunData) :
    Summary :=
  let total_runs := successful_runs + failed_runs
  ⟨total_runs, successful_runs, failed_runs,
   if total_runs > 0 then (successful_runs : ℚ) / total_runs * 100 else 0,
   test_results⟩

/-- `TestEngine.run_test` (lines 60-137): a failed `navigate_to` raises
(`raise Exception(f"Failed to navigate to ...")`) before any run executes; the
`wait_for_page_load` result is ignored; otherwise all iterations run and a
summary is produced. -/
def run_test (env : EngineEnv) (iterations : Nat) : Except String EngineOutcome :=
  if env.navigate_ok then
    let r := engine_loop env iterations 1 ⟨[], [], [], []⟩ [] 0 0
    .ok ⟨generate_summary r.2.2.1 r.2.2.2 r.2.1, r.1⟩
  else
    .error ("Failed to navigate to " ++ env.target_url)

end TestEngine

/-! Concrete fixtures used by witnesses and counterexamples. -/

/-- A click step resolved by text, as in the spec's end-to-end scenario. -/
def clickStart : Step :=
  ⟨"Click Start", "click", "text", "Start", none, none, none, none, none, none⟩

/-- The increment step of the spec's end-to-end scenario. -/
def incSectionA : Step :=
  ⟨"Increment section A", "increment_quantity", "section_product", "sectionA",
   none, none, none, none, none, none⟩

/-- The export click of the spec's end-to-end scenario. -/
def clickExport : Step :=
  ⟨"Click Export", "click", "text", "Export", none, none, none, none, none, none⟩

/-- The spec's end-to-end TestPath. -/
def threeSteps : List Step := [clickStart, incSectionA, clickExport]

/-- A step whose action is outside every recognized set. -/
def hoverStep : Step :=
  ⟨"Hover menu", "hover", "text", "Menu", none, none, none, none, none, none⟩

/-- A step with the structural selector type `id`. -/
def idStep : Step :=
  ⟨"Click by id", "click", "id", "start-button", none, none, none, none, none, none⟩

/-- A step with selector type `section_product` for the core executor. -/
def sectionStep : Step :=
  ⟨"Locate section", "increment_quantity", "section_product", "sectionA",
   none, none, none, none, none, none⟩

/-- A TestExecutor page on which every element resolves and every driver call
succeeds. -/
def pxOk : TestExecutor.PageX :=
  ⟨fun _ => .ok 1, fun _ => .ok (), fun _ _ => .ok (), fun _ => .ok (), fun _ => .ok ()⟩

/-- A TestExecutor page on which clicking `text=Start` succeeds and every other
click faults with a timeout. -/
def pxStartOnly : TestExecutor.PageX :=
  ⟨fun _ => .ok 1,
   fun sel => if sel = "text=Start" then .ok () else .error Fault.timeout,
   fun _ _ => .ok (), fun _ => .ok (), fun _ => .ok ()⟩

/-- A TestExecutor page on which every click faults. -/
def pxClickFault : TestExecutor.PageX :=
  ⟨fun _ => .ok 1, fun _ => .error (Fault.err "element detached"),
   fun _ _ => .ok (), fun _ => .ok (), fun _ => .ok ()⟩

/-- A main-script page on which everything resolves (count 1) and all driver calls
succeed; the metrics script reports zero used/limit memory. -/
def pbOk : BT.PageB :=
  ⟨.ok (), fun _ => .ok 1, fun _ => .ok (), fun _ => .ok (), .ok (), 0, 0⟩

/-- A main-script page on which the driver reports zero matches for every selector. -/
def pbZero : BT.PageB :=
  ⟨.ok (), fun _ => .ok 0, fun _ => .ok (), fun _ => .ok (), .ok (), 0, 0⟩

/-- A main-script page on which every click faults. -/
def pbClickFault : BT.PageB :=
  ⟨.ok (), fun _ => .ok 1, fun _ => .error (Fault.err "element detached"),
   fun _ => .ok (), .ok (), 0, 0⟩

/-- A main-script page reporting 50 of 200 memory units used. -/
def pbMem : BT.PageB :=
  ⟨.ok (), fun _ => .ok 1, fun _ => .ok (), fun _ => .ok (), .ok (), 50, 200⟩

/-- The selector `locate_element` builds for `clickStart` on the main script. -/
def startSel : String := "button:has-text(" ++ sq ++ "Start" ++ sq ++ ")"

/-- Engine collaborators: navigation and load succeed, performance tracking on,
every run's steps succeed. -/
def envOk : TestEngine.EngineEnv :=
  ⟨"https://www.bostontec.com/3d-workbench-builder/?", true, true, true, true,
   fun _ => true⟩

/-- Engine collaborators identical to `envOk` except that the initial
`navigate_to` fails. -/
def envNavFail : TestEngine.EngineEnv :=
  ⟨"https://www.bostontec.com/3d-workbench-builder/?", false, true, true, true,
   fun _ => true⟩

/-- An empty main-script stats record. -/
def statsEmpty : BT.BTStats := ⟨[], [], 0⟩

/-! Theorems. -/

/-- C8: for every requested iteration count r and configured per-customer maximum,
test setup never rejects the request: above the maximum the effective count is
exactly the maximum, otherwise exactly r (`TestEngine.setup_test`,
test_engine.py lines 46-50). -/
theorem c8_iteration_clamp (cfg : TestEngine.CustomerConfig) (r : Nat) :
    TestEngine.setup_test (Except.ok cfg) r = Except.ok (min r cfg.max_iterations) ∧
    (r > cfg.max_iterations →
      TestEngine.setup_test (Except.ok cfg) r = Except.ok cfg.max_iterations) ∧
    (r ≤ cfg.max_iterations → TestEngine.setup_test (Except.ok cfg) r = Except.ok r) := by
  have hmin : TestEngine.validate_iterations r cfg.max_iterations =
      min r cfg.max_iterations := by
    unfold TestEngine.validate_iterations
    split <;> omega
  refine ⟨?_, ?_, ?_⟩
  · simp [TestEngine.setup_test, hmin]
  · intro h
    simp only [TestEngine.setup_test, hmin, Except.ok.injEq]
    omega
  · intro h
    simp only [TestEngine.setup_test, hmin, Except.ok.injEq]
    omega

/-- C8 witness: a request of 9 against a maximum of 5 yields effective count 5. -/
theorem c8_witness :
    TestEngine.setup_test
        (Except.ok ⟨"bostontec", "https://www.bostontec.com/3d-workbench-builder/?", 5, 5⟩)
        9 = Except.ok 5 :=
  (c8_iteration_clamp
      ⟨"bostontec", "https://www.bostontec.com/3d-workbench-builder/?", 5, 5⟩ 9).2.1
    (by decide)

/-- C9: for non-negative reported used/limit memory, `memory_usage_percent` is
`used / limit * 100` when the limit is positive and exactly 0 when the limit is 0,
hence always non-negative and never a division fault; the snapshot capture appends
exactly the derived entry for every input (the threshold warnings of
bostontec_stress_test.py lines 309-312 only log). -/
theorem c9_memory_percent_safe (page : BT.PageB) (r : Nat) (l : String)
    (stats : BT.BTStats) (hu : 0 ≤ page.memUsed) (_hl : 0 ≤ page.memLimit)
    (he : page.perfEvalResult = Except.ok ()) :
    0 ≤ BT.memory_usage_percent page.memUsed page.memLimit ∧
    (page.memLimit = 0 → BT.memory_usage_percent page.memUsed page.memLimit = 0) ∧
    (0 < page.memLimit →
      BT.memory_usage_percent page.memUsed page.memLimit =
        page.memUsed / page.memLimit * 100) ∧
    BT.capture_performance_metrics page r l stats =
      { stats with
          performance_metrics := stats.performance_metrics ++
            [⟨r, l, BT.memory_usage_percent page.memUsed page.memLimit⟩] } := by
  refine ⟨?_, ?_, ?_, ?_⟩
  · unfold BT.memory_usage_percent
    by_cases h : page.memLimit > 0
    · rw [if_pos h]
      exact mul_nonneg (div_nonneg hu h.le) (by norm_num)
    · rw [if_neg h]
  · intro h0
    unfold BT.memory_usage_percent
    rw [if_neg (by rw [h0]; exact lt_irrefl 0)]
  · intro hpos
    unfold BT.memory_usage_percent
    rw [if_pos hpos]
  · simp [BT.capture_performance_metrics, he]

/-- C9 witness: a page reporting 50 used of 200 limit. -/
theorem c9_witness :
    0 ≤ BT.memory_usage_percent pbMem.memUsed pbMem.memLimit ∧
    (pbMem.memLimit = 0 → BT.memory_usage_percent pbMem.memUsed pbMem.memLimit = 0) ∧
    (0 < pbMem.memLimit →
      BT.memory_usage_percent pbMem.memUsed pbMem.memLimit =
        pbMem.memUsed / pbMem.memLimit * 100) ∧
    BT.capture_performance_metrics pbMem 1 "start" statsEmpty =
      { statsEmpty with
          performance_metrics := statsEmpty.performance_metrics ++
            [⟨1, "start", BT.memory_usage_percent pbMem.memUsed pbMem.memLimit⟩] } :=
  c9_memory_percent_safe pbMem 1 "start" statsEmpty (by norm_num [pbMem])
    (by norm_num [pbMem]) rfl

/-- C4: a driver-level fault raised inside a step handler is caught at the
`execute_step` boundary and converted to the return value `false`, in both the
core executor (test_executor.py lines 38-40) and the main script
(bostontec_stress_test.py lines 494-498); `execute_step` itself is `Bool`-valued
(total), so no exception reaches the run controller. -/
theorem c4_fault_converted (px : TestExecutor.PageX) (pb : BT.PageB) (s : Step)
    (e1 e2 : Fault) (tr1 tr2 : List DriverOp) :
    (TestExecutor.execute_step_body px s = (Except.error e1, tr1) →
      TestExecutor.execute_step px s = (false, tr1)) ∧
    (BT.execute_step_body pb s = (Except.error e2, tr2) →
      BT.execute_step pb s = (false, tr2)) := by
  constructor
  · intro h
    simp [TestExecutor.execute_step, h]
  · intro h
    simp [BT.execute_step, h]

/-- C4 witness: pages whose click call faults; both executors return `false`. -/
theorem c4_witness :
    TestExecutor.execute_step pxClickFault clickStart =
      (false, [DriverOp.click "text=Start"]) ∧
    BT.execute_step pbClickFault clickStart =
      (false, [DriverOp.waitLoad, DriverOp.query startSel, DriverOp.stateQuery startSel,
               DriverOp.click startSel]) :=
  ⟨(c4_fault_converted pxClickFault pbClickFault clickStart (Fault.err "element detached")
      (Fault.err "element detached") [DriverOp.click "text=Start"]
      [DriverOp.waitLoad, DriverOp.query startSel, DriverOp.stateQuery startSel,
       DriverOp.click startSel]).1 rfl,
   (c4_fault_converted pxClickFault pbClickFault clickStart (Fault.err "element detached")
      (Fault.err "element detached") [DriverOp.click "text=Start"]
      [DriverOp.waitLoad, DriverOp.query startSel, DriverOp.stateQuery startSel,
       DriverOp.click startSel]).2 rfl⟩

/-- C6 (amended): for every step whose action is outside
{click, type, scroll, navigate, wait, increment_quantity}, the core executor's
`execute_step` returns `false` with no driver call, and the main script's
`execute_step` returns `false` with no driver call other than its unconditional
initial page-ready wait (`wait_for_load_state`,
bostontec_stress_test.py line 437). -/
theorem c6_unknown_action_no_driver_ops (px : TestExecutor.PageX) (pb : BT.PageB)
    (s : Step)
    (h : s.action ∉ ["click", "increment_quantity", "navigate", "wait", "type", "scroll"]) :
    TestExecutor.execute_step px s = (false, []) ∧
    BT.execute_step pb s = (false, [DriverOp.waitLoad]) := by
  simp only [List.mem_cons, List.not_mem_nil, or_false, not_or] at h
  obtain ⟨h1, h2, h3, h4, h5, h6⟩ := h
  constructor
  · simp [TestExecutor.execute_step, TestExecutor.execute_step_body, h1, h2, h3, h4, h5, h6]
  · simp [BT.execute_step, BT.execute_step_body, h1, h2]

/-- C6 witness: an unrecognized `hover` action. -/
theorem c6_witness :
    TestExecutor.execute_step pxOk hoverStep = (false, []) ∧
    BT.execute_step pbOk hoverStep = (false, [DriverOp.waitLoad]) :=
  c6_unknown_action_no_driver_ops pxOk pbOk hoverStep (by decide)

/-- C6 counterexample to the claim as stated: on an unrecognized action the main
script's `execute_step` does issue a driver call (the page-ready wait), so
"performs no driver action (no ... wait ... is issued to the page)" is false. -/
theorem c6_counterexample :
    (BT.execute_step pbOk hoverStep).1 = false ∧
    (BT.execute_step pbOk hoverStep).2 ≠ [] ∧
    DriverOp.waitLoad ∈ (BT.execute_step pbOk hoverStep).2 := by
  decide

/-- C10 (amended): in the core executor `id`/`class` build `#value`/`.value` and
return the first match, but the recognized set there is
{text, testid, composite, css, id, class}: `section_product` is treated as unknown
(resolution returns None).  In the main script the recognized set is
{text, testid, composite, section_product}: `id`/`class` fall through to
not-found without a driver query. -/
theorem c10_selector_type_coverage (pb : BT.PageB) (s : Step) :
    (s.selector_type = "id" →
      TestExecutor.locate_element s = some ("#" ++ s.selector_value)) ∧
    (s.selector_type = "class" →
      TestExecutor.locate_element s = some ("." ++ s.selector_value)) ∧
    (s.selector_type = "section_product" → TestExecutor.locate_element s = none) ∧
    (s.selector_type = "id" ∨ s.selector_type = "class" →
      BT.locate_element pb s = (none, [])) := by
  refine ⟨?_, ?_, ?_, ?_⟩
  · intro h
    simp [TestExecutor.locate_element, h]
  · intro h
    simp [TestExecutor.locate_element, h]
  · intro h
    simp [TestExecutor.locate_element, h]
  · rintro (h | h) <;> simp [BT.locate_element, h]

/-- C10 witness: concrete id/class/section_product steps. -/
theorem c10_witness :
    (TestExecutor.locate_element idStep = some ("#" ++ idStep.selector_value)) ∧
    (TestExecutor.locate_element sectionStep = none) ∧
    (BT.locate_element pbOk idStep = (none, [])) :=
  ⟨(c10_selector_type_coverage pbOk idStep).1 rfl,
   (c10_selector_type_coverage pbOk sectionStep).2.2.1 rfl,
   (c10_selector_type_coverage pbOk idStep).2.2.2 (Or.inl rfl)⟩

/-- C10 counterexample to the claim as stated: `section_product` is in the
declared selector-type set but the core executor's resolution treats it as
unknown (returns None), and the main script treats `id` as unrecognized even on a
page where `#start-button` has matches. -/
theorem c10_counterexample :
    TestExecutor.locate_element sectionStep = none ∧
    BT.locate_element pbOk idStep = (none, []) ∧
    pbOk.countResult ("#" ++ idStep.selector_value) = Except.ok 1 :=
  ⟨rfl, rfl, rfl⟩

/-- C3: on the main script, for every recognized selector type, with a driver
reporting zero matches resolution returns not-found (`(None, None)`, no
exception) and the owning click/increment step returns `false`
(bostontec_stress_test.py lines 394-425, 427-498). -/
theorem c3_zero_matches_not_found (pb : BT.PageB) (s : Step)
    (hcount : ∀ sel, pb.countResult sel = Except.ok 0)
    (htype : s.selector_type ∈ ["text", "testid", "composite", "section_product"])
    (haction : s.action = "click" ∨ s.action = "increment_quantity") :
    (BT.locate_element pb s).1 = none ∧ (BT.execute_step pb s).1 = false := by
  simp only [List.mem_cons, List.not_mem_nil, or_false] at htype
  constructor
  · rcases htype with h | h | h | h <;> simp [BT.locate_element, h, hcount]
  · rcases haction with ha | ha <;> rcases htype with h | h | h | h <;>
      simp [BT.execute_step, BT.execute_step_body, BT.locate_element, h, ha, hcount]

/-- C3 witness: a text-selector click step on a page with zero matches. -/
theorem c3_witness :
    (BT.locate_element pbZero clickStart).1 = none ∧
    (BT.execute_step pbZero clickStart).1 = false :=
  c3_zero_matches_not_found pbZero clickStart (fun _ => rfl) (by decide) (Or.inl rfl)

/-- Fail-fast behavior of the core executor's run loop: if steps before the k-th
succeed and the k-th fails, the loop starting at number i invokes exactly numbers
i, i+1, ..., i+k-1 and returns `False`. -/
theorem run_steps_fail_fast (px : TestExecutor.PageX) (steps : List Step) :
    ∀ (i k : Nat), 1 ≤ k → k ≤ steps.length →
      (∀ j, j + 1 < k →
        (TestExecutor.execute_step px (steps.getD j stepDefault)).1 = true) →
      (TestExecutor.execute_step px (steps.getD (k - 1) stepDefault)).1 = false →
      TestExecutor.run_steps px steps i = (false, List.range' i k) := by
  induction steps with
  | nil =>
      intro i k h1 h2 _ _
      simp at h2
      omega
  | cons s rest ih =>
      intro i k h1 h2 hpre hk
      rcases k with _ | k
      · omega
      rcases k with _ | k'
      · have hk0 : (TestExecutor.execute_step px s).1 = false := by simpa using hk
        simp [TestExecutor.run_steps, hk0, List.range']
      · have hs : (TestExecutor.execute_step px s).1 = true := by
          simpa using hpre 0 (by omega)
        have ihh := ih (i + 1) (k' + 1) (by omega) (by simp at h2; omega)
          (fun j hj => by simpa using hpre (j + 1) (by omega))
          (by simpa using hk)
        simp [TestExecutor.run_steps, hs, ihh, List.range'_succ]

/-- C1: for a TestPath whose k-th step is the first to fail, the core executor's
run invokes exactly steps 1..k in that order (later steps never run) and the run
outcome is `False` (`TestExecutor.execute_test_run`, test_executor.py
lines 186-197). -/
theorem c1_first_failure_aborts (px : TestExecutor.PageX) (steps : List Step) (k : Nat)
    (h1 : 1 ≤ k) (h2 : k ≤ steps.length)
    (hpre : ∀ j, j + 1 < k →
      (TestExecutor.execute_step px (steps.getD j stepDefault)).1 = true)
    (hk : (TestExecutor.execute_step px (steps.getD (k - 1) stepDefault)).1 = false) :
    TestExecutor.execute_test_run px steps = (false, List.range' 1 k) :=
  run_steps_fail_fast px steps 1 k h1 h2 hpre hk

/-- C1 witness: two click steps where only `text=Start` is clickable; the run
invokes steps 1 and 2 and stops, recorded failed. -/
theorem c1_witness :
    TestExecutor.execute_test_run pxStartOnly [clickStart, clickExport] =
      (false, List.range' 1 2) :=
  c1_first_failure_aborts pxStartOnly [clickStart, clickExport] 2 (by decide) (by decide)
    (fun j hj => by
      have hj0 : j = 0 := by omega
      subst hj0
      decide)
    (by decide)

/-- The main-script snapshot capture appends exactly one entry when the metrics
evaluation succeeds. -/
theorem capture_perf_length (page : BT.PageB) (r : Nat) (l : String)
    (stats : BT.BTStats) (he : page.perfEvalResult = Except.ok ()) :
    (BT.capture_performance_metrics page r l stats).performance_metrics =
      stats.performance_metrics ++
        [⟨r, l, BT.memory_usage_percent page.memUsed page.memLimit⟩] := by
  simp [BT.capture_performance_metrics, he]

/-- Degradation detection never touches the snapshot list (it appends only to the
degradation list). -/
theorem detect_preserves_perf (r : Nat) (stats : BT.BTStats) :
    (BT.detect_performance_degradation r stats).performance_metrics =
      stats.performance_metrics := by
  by_cases h1 : r < 2
  · simp [BT.detect_performance_degradation, h1]
  · by_cases h2 : (stats.performance_metrics.filter (fun m => m.run_number == r)).isEmpty
        || (stats.performance_metrics.filter (fun m => m.run_number == r - 1)).isEmpty
    · simp only [BT.detect_performance_degradation, if_neg h1, h2, if_true]
    · by_cases h3 :
          BT.avg_mem (stats.performance_metrics.filter (fun m => m.run_number == r)) -
            BT.avg_mem (stats.performance_metrics.filter (fun m => m.run_number == r - 1)) >
            10
      · simp [BT.detect_performance_degradation, h1, h2, h3]
      · simp [BT.detect_performance_degradation, h1, h2, h3]

/-- The high-memory GC trigger never touches the snapshot list. -/
theorem gc_preserves_perf (r i : Nat) (stats : BT.BTStats) :
    (BT.gc_check r i stats).performance_metrics = stats.performance_metrics := by
  cases hL : (stats.performance_metrics.filter
      (fun m => m.run_number == r && m.step_name == "after_step_" ++ toString i)).getLast?
    with
  | none => simp [BT.gc_check, hL]
  | some m =>
      by_cases h : m.memory_usage_percent > 70
      · simp [BT.gc_check, hL, h, BT.force_garbage_collection]
      · simp [BT.gc_check, hL, h]

/-- The main-script step loop on an all-successful path: returns `True`, invokes
every step number in order, and grows the snapshot list by exactly 2 per step. -/
theorem bt_run_steps_all_ok (page : BT.PageB) (run : Nat)
    (he : page.perfEvalResult = Except.ok ()) (steps : List Step) :
    ∀ (i : Nat) (stats : BT.BTStats),
      (∀ s ∈ steps, (BT.execute_step page s).1 = true) →
      (BT.run_steps page run steps i stats).1 = true ∧
      (BT.run_steps page run steps i stats).2.2 = List.range' i steps.length ∧
      (BT.run_steps page run steps i stats).2.1.performance_metrics.length =
        stats.performance_metrics.length + 2 * steps.length := by
  induction steps with
  | nil =>
      intro i stats _
      simp [BT.run_steps]
  | cons s rest ih =>
      intro i stats hall
      have hs : (BT.execute_step page s).1 = true := hall s (by simp)
      have hrest : ∀ t ∈ rest, (BT.execute_step page t).1 = true :=
        fun t ht => hall t (by simp [ht])
      have hlen4 :
          (BT.gc_check run i (BT.detect_performance_degradation run
              (BT.capture_performance_metrics page run ("after_step_" ++ toString i)
                (BT.capture_performance_metrics page run ("before_step_" ++ toString i)
                  stats)))).performance_metrics.length =
            stats.performance_metrics.length + 2 := by
        rw [gc_preserves_perf, detect_preserves_perf, capture_perf_length page run _ _ he,
          capture_perf_length page run _ _ he]
        simp
      obtain ⟨ih1, ih2, ih3⟩ := ih (i + 1)
        (BT.gc_check run i (BT.detect_performance_degradation run
          (BT.capture_performance_metrics page run ("after_step_" ++ toString i)
            (BT.capture_performance_metrics page run ("before_step_" ++ toString i)
              stats)))) hrest
      refine ⟨?_, ?_, ?_⟩
      · simp only [BT.run_steps, hs, if_true]
        exact ih1
      · simp only [BT.run_steps, hs, if_true]
        rw [ih2]
        simp [List.range'_succ]
      · simp only [BT.run_steps, hs, if_true]
        rw [ih3, hlen4]
        simp
        omega

/-- C2 (amended): for a TestPath where every step succeeds, the main script's
`execute_test_run` records the run successful after exactly N step invocations
and captures exactly 2N + 3 performance snapshots: `start`, `page_loaded`, one
before and one after every step, and `completed`
(bostontec_stress_test.py lines 515-572). -/
theorem c2_all_success_snapshots (page : BT.PageB) (steps : List Step) (run : Nat)
    (stats : BT.BTStats) (he : page.perfEvalResult = Except.ok ())
    (hall : ∀ s ∈ steps, (BT.execute_step page s).1 = true) :
    (BT.execute_test_run page steps run stats).1 = true ∧
    (BT.execute_test_run page steps run stats).2.2 = List.range' 1 steps.length ∧
    (BT.execute_test_run page steps run stats).2.1.performance_metrics.length =
      stats.performance_metrics.length + (2 * steps.length + 3) := by
  obtain ⟨h1, h2, h3⟩ := bt_run_steps_all_ok page run he steps 1
    (BT.capture_performance_metrics page run "page_loaded"
      (BT.capture_performance_metrics page run "start" stats)) hall
  rcases hr : BT.run_steps page run steps 1
      (BT.capture_performance_metrics page run "page_loaded"
        (BT.capture_performance_metrics page run "start" stats)) with ⟨b, st, tr⟩
  rw [hr] at h1 h2 h3
  simp only at h1 h2 h3
  subst h1
  refine ⟨?_, ?_, ?_⟩
  · simp [BT.execute_test_run, hr]
  · simp [BT.execute_test_run, hr]
    exact h2
  · simp only [BT.execute_test_run, hr]
    rw [capture_perf_length page run _ _ he]
    simp
    rw [h3, capture_perf_length page run _ _ he, capture_perf_length page run _ _ he]
    simp
    omega

/-- C2 witness: the spec's three-step path on a fully-resolvable page; the run
succeeds after 3 invocations with 2*3 + 3 snapshots. -/
theorem c2_witness :
    (BT.execute_test_run pbOk threeSteps 1 statsEmpty).1 = true ∧
    (BT.execute_test_run pbOk threeSteps 1 statsEmpty).2.2 =
      List.range' 1 threeSteps.length ∧
    (BT.execute_test_run pbOk threeSteps 1 statsEmpty).2.1.performance_metrics.length =
      statsEmpty.performance_metrics.length + (2 * threeSteps.length + 3) :=
  c2_all_success_snapshots pbOk threeSteps 1 statsEmpty rfl (by decide)

/-- C2 counterexample to the claim as stated: the fully-successful 3-step run
captures 9 snapshots (the code also captures `page_loaded`), not 2N + 2 = 8. -/
theorem c2_counterexample :
    (BT.execute_test_run pbOk threeSteps 1 statsEmpty).1 = true ∧
    (BT.execute_test_run pbOk threeSteps 1 statsEmpty).2.1.performance_metrics.length = 9 ∧
    (2 * threeSteps.length + 2 = 8) ∧
    ¬((BT.execute_test_run pbOk threeSteps 1 statsEmpty).2.1.performance_metrics.length =
        2 * threeSteps.length + 2) := by
  decide

/-- The iteration loop of `TestEngine.run_test` always terminates normally:
it appends one run record per iteration, numbered consecutively, and its
success/failure counters add up to the iteration count — for every per-run
outcome assignment. -/
theorem engine_loop_spec (env : TestEngine.EngineEnv) :
    ∀ (n r : Nat) (store : TestEngine.TelemetryStore)
      (results : List TestEngine.RunData) (s f : Nat),
      (TestEngine.engine_loop env n r store results s f).2.1.map
          TestEngine.RunData.run_number =
        results.map TestEngine.RunData.run_number ++ List.range' r n ∧
      (TestEngine.engine_loop env n r store results s f).2.2.1 +
          (TestEngine.engine_loop env n r store results s f).2.2.2 = s + f + n := by
  intro n
  induction n with
  | zero =>
      intro r store results s f
      simp [TestEngine.engine_loop]
  | succ n ih =>
      intro r store results s f
      cases hok : env.runSuccess r with
      | true =>
          obtain ⟨ih1, ih2⟩ := ih (r + 1)
            (TestEngine.capture_performance_metrics env r "end"
              (TestEngine.capture_performance_metrics env r "start"
                (TestEngine.clear_data store)))
            (results ++
              [⟨r, true, "run_" ++ toString r ++ "_final_state.png",
                TestEngine.get_collected_data⟩])
            (s + 1) f
          refine ⟨?_, ?_⟩
          · simp only [TestEngine.engine_loop, hok, if_true]
            rw [ih1]
            simp [List.range'_succ, hok]
          · simp only [TestEngine.engine_loop, hok, if_true]
            rw [ih2]
            omega
      | false =>
          obtain ⟨ih1, ih2⟩ := ih (r + 1)
            (TestEngine.capture_performance_metrics env r "end"
              (TestEngine.capture_performance_metrics env r "start"
                (TestEngine.clear_data store)))
            (results ++
              [⟨r, false, "run_" ++ toString r ++ "_final_state.png",
                TestEngine.get_collected_data⟩])
            s (f + 1)
          refine ⟨?_, ?_⟩
          · simp only [TestEngine.engine_loop, hok, Bool.false_eq_true, if_false]
            rw [ih1]
            simp [List.range'_succ, hok]
          · simp only [TestEngine.engine_loop, hok, Bool.false_eq_true, if_false]
            rw [ih2]
            omega

/-- C7 (amended): once setup and the initial navigation succeed, the run-set
executes all N requested runs — numbered 1..N in order — and produces a summary,
for every per-run outcome sequence and regardless of the load-wait result;
step-level run failures never abort the run-set (`TestEngine.run_test`,
test_engine.py lines 60-137). -/
theorem c7_all_runs_execute (env : TestEngine.EngineEnv) (N : Nat)
    (_h1 : 1 ≤ N) (hnav : env.navigate_ok = true) :
    ∃ out, TestEngine.run_test env N = Except.ok out ∧
      out.summary.total_runs = N ∧
      out.summary.successful_runs + out.summary.failed_runs = N ∧
      out.summary.test_results.map TestEngine.RunData.run_number = List.range' 1 N := by
  obtain ⟨hmap, hcnt⟩ := engine_loop_spec env N 1 ⟨[], [], [], []⟩ [] 0 0
  rcases hr : TestEngine.engine_loop env N 1 ⟨[], [], [], []⟩ [] 0 0
    with ⟨store2, results2, s2, f2⟩
  rw [hr] at hmap hcnt
  simp only [List.map_nil, List.nil_append] at hmap
  simp only at hcnt
  refine ⟨⟨TestEngine.generate_summary s2 f2 results2, store2⟩, ?_, ?_, ?_, ?_⟩
  · simp [TestEngine.run_test, hnav, hr]
  · simp only [TestEngine.generate_summary]
    omega
  · simp only [TestEngine.generate_summary]
    omega
  · simpa [TestEngine.generate_summary] using hmap

/-- C7 witness: three iterations with all collaborators succeeding. -/
theorem c7_witness :
    ∃ out, TestEngine.run_test envOk 3 = Except.ok out ∧
      out.summary.total_runs = 3 ∧
      out.summary.successful_runs + out.summary.failed_runs = 3 ∧
      out.summary.test_results.map TestEngine.RunData.run_number = List.range' 1 3 :=
  c7_all_runs_execute envOk 3 (by decide) rfl

/-- C7 counterexample to the claim as stated: with setup done and a failed initial
navigation, `run_test` raises (`raise Exception(...)`, test_engine.py line 74):
no run executes and no summary is produced, although the claim says a failure of
the very first navigation never aborts the run-set. -/
theorem c7_counterexample :
    TestEngine.run_test envNavFail 3 =
      Except.error ("Failed to navigate to " ++ envNavFail.target_url) ∧
    ∀ out, TestEngine.run_test envNavFail 3 ≠ Except.ok out := by
  constructor
  · rfl
  · intro out h
    simp [TestEngine.run_test, envNavFail] at h

/-- C5: evaluation of `TestEngine.run_test` at the failing input (2 iterations,
both successful, performance tracking on).  `get_collected_data`
(data_collector.py lines 189-197) returns the collector's live list objects and
`clear_data` (lines 199-204) empties those same objects in place at the start of
the next run, so the telemetry of run 1's RunResult — `[⟨1,start⟩, ⟨1,end⟩]` at
the moment it is appended (first conjunct, the 1-iteration prefix) — reads as run
2's entries `[⟨2,start⟩, ⟨2,end⟩]` after run 2 has executed (second conjunct),
although it is the record with `run_number = 1` (third conjunct): the RunResult
is mutated after append, contradicting the claim. -/
theorem c5_runresult_mutated_after_append :
    (TestEngine.run_test envOk 1).map
        (fun o => o.summary.test_results.map
          (fun rd => TestEngine.read_performance o.store rd.data)) =
      Except.ok [[⟨1, "start"⟩, ⟨1, "end"⟩]] ∧
    (TestEngine.run_test envOk 2).map
        (fun o => o.summary.test_results.map
          (fun rd => TestEngine.read_performance o.store rd.data)) =
      Except.ok [[⟨2, "start"⟩, ⟨2, "end"⟩], [⟨2, "start"⟩, ⟨2, "end"⟩]] ∧
    (TestEngine.run_test envOk 2).map
        (fun o => o.summary.test_results.map TestEngine.RunData.run_number) =
      Except.ok [1, 2] :=
  ⟨rfl, rfl, rfl⟩

end StressTest
